import Mathlib

/-!
Verification of the SQL validation dashboard's metric-aggregation and
normalization core against its natural-language specification.

Numbers are modelled as rationals (`ℚ`); JavaScript `undefined` is modelled by
`Option`.  A raw record is the JSON-decoded input to `handleDataLoad`
(`SQLValidationDashboard.tsx`): every field may be absent, numeric fields carry
JSON numbers, boolean fields JSON booleans, and `unknown_tokens` is either an
array of strings, a single string, or absent.
-/

/-- Raw value of the `unknown_tokens` field before normalization: a native
array of strings, a single string, or absent (SQLValidationDashboard.tsx
lines 51-55 branch on exactly these three shapes). -/
inductive RawTokens where
  | arr (l : List String)
  | str (s : String)
  | absent
deriving DecidableEq

/-- A raw, JSON-decoded test-case record as fed to `handleDataLoad`
(the field set of the `SQLTestCase` interface in `src/types/validation.ts`,
with every field possibly absent since no validation happens upstream). -/
structure RawTestCase where
  id : Option String
  user_prompt : Option String
  expected_sql : Option String
  generated_sql : Option String
  syntax_score : Option ℚ
  semantic_score : Option ℚ
  codebert_match : Option Bool
  flane5_match : Option Bool
  true_label : Option String
  n_gram_score : Option ℚ
  bleu_score : Option ℚ
  rouge_score : Option ℚ
  exact_match : Option Bool
  token_count : Option ℚ
  unknown_tokens : RawTokens
  has_limit : Option ℚ
  has_offset : Option ℚ
  has_result_type : Option ℚ
  has_cte : Option ℚ
  has_order_by : Option ℚ
  has_group_by : Option ℚ
  has_join : Option ℚ
  codebert_intent_score : Option ℚ
  codebert_sqlsim_score : Option ℚ
  flane5_intent_score : Option ℚ
  flane5_sqlsim_score : Option ℚ
  ngram1_precision : Option ℚ
  ngram1_recall : Option ℚ
  ngram1_f1 : Option ℚ
  ngram2_precision : Option ℚ
  ngram2_recall : Option ℚ
  ngram2_f1 : Option ℚ
  edit_similarity : Option ℚ
  vocab_unknown_count : Option ℚ
  vocab_unknown_ratio : Option ℚ
  «precision» : Option ℚ
  «recall» : Option ℚ
  f1_score : Option ℚ
  execution_accuracy : Option ℚ
deriving DecidableEq

/-- A cleaned test case, the element type of the dashboard's `data` state after
`handleDataLoad` (SQLValidationDashboard.tsx lines 39-81).  String identity
fields stay `Option` because the cleaning step spreads them through unchanged
with no validation or defaulting. -/
@[ext] structure SQLTestCase where
  id : Option String
  user_prompt : Option String
  expected_sql : Option String
  generated_sql : Option String
  syntax_score : ℚ
  semantic_score : ℚ
  codebert_match : Bool
  flane5_match : Bool
  true_label : Option String
  n_gram_score : Option ℚ
  bleu_score : Option ℚ
  rouge_score : Option ℚ
  exact_match : Option Bool
  token_count : Option ℚ
  unknown_tokens : List String
  has_limit : Option Bool
  has_offset : Option Bool
  has_result_type : Option Bool
  has_cte : Option Bool
  has_order_by : Option Bool
  has_group_by : Option Bool
  has_join : Option Bool
  codebert_intent_score : Option ℚ
  codebert_sqlsim_score : Option ℚ
  flane5_intent_score : Option ℚ
  flane5_sqlsim_score : Option ℚ
  ngram1_precision : Option ℚ
  ngram1_recall : Option ℚ
  ngram1_f1 : Option ℚ
  ngram2_precision : Option ℚ
  ngram2_recall : Option ℚ
  ngram2_f1 : Option ℚ
  edit_similarity : Option ℚ
  vocab_unknown_count : Option ℚ
  vocab_unknown_ratio : Option ℚ
  «precision» : Option ℚ
  «recall» : Option ℚ
  f1_score : Option ℚ
  execution_accuracy : Option ℚ
deriving DecidableEq

/-- JavaScript blank test of line 40 of SQLValidationDashboard.tsx:
`!item.generated_sql || String(item.generated_sql).trim() === ''`
(an absent or empty string is falsy; otherwise trim and compare with the empty string). -/
def jsBlank : Option String → Bool
  | none => true
  | some s => s == "" || s.trim == ""

/-- JavaScript `Number(x) || 0` on an optional JSON number: `Number(undefined)`
is `NaN`, which `|| 0` turns into `0`; a present number `n` gives `n || 0 = n`
(also when `n = 0`). -/
def numberOr0 : Option ℚ → ℚ
  | none => 0
  | some n => n

/-- JavaScript `x ? Number(x) : undefined` on an optional JSON number:
absent stays absent, `0` is falsy and becomes absent, any other number is
kept. -/
def truthyNum : Option ℚ → Option ℚ
  | none => none
  | some n => if n = 0 then none else some n

/-- JavaScript `Boolean(x)` on an optional JSON boolean: `Boolean(undefined)`
is `false`. -/
def jsBool : Option Bool → Bool
  | none => false
  | some b => b

/-- JavaScript `x ? Boolean(x) : undefined` on an optional JSON boolean:
absent and `false` (both falsy) become absent, `true` is kept. -/
def truthyBool : Option Bool → Option Bool
  | none => none
  | some b => if b then some true else none

/-- Coercion of `unknown_tokens` in SQLValidationDashboard.tsx lines 51-55:
keep an array as-is; split a non-empty string on `;`, trim each part and drop
empty parts (`filter(Boolean)`); anything else becomes the empty list. -/
def coerceTokens : RawTokens → List String
  | .arr l => l
  | .str s => if s = "" then [] else ((s.splitOn ";").map String.trim).filter (fun t => t ≠ "")
  | .absent => []

/-- The per-item cleaning function inside `handleDataLoad`
(SQLValidationDashboard.tsx lines 39-81), field by field. -/
def cleanItem (item : RawTestCase) : SQLTestCase :=
  let isGeneratedSqlBlank := jsBlank item.generated_sql
  { id := item.id
    user_prompt := item.user_prompt
    expected_sql := item.expected_sql
    generated_sql := item.generated_sql
    syntax_score := if isGeneratedSqlBlank then 0 else numberOr0 item.syntax_score
    semantic_score := numberOr0 item.semantic_score
    codebert_match := jsBool item.codebert_match
    flane5_match := jsBool item.flane5_match
    true_label := item.true_label
    n_gram_score := truthyNum item.n_gram_score
    bleu_score := truthyNum item.bleu_score
    rouge_score := truthyNum item.rouge_score
    exact_match := truthyBool item.exact_match
    token_count := item.token_count
    unknown_tokens := coerceTokens item.unknown_tokens
    has_limit := Option.map (fun n => decide (n ≠ 0)) item.has_limit
    has_offset := Option.map (fun n => decide (n ≠ 0)) item.has_offset
    has_result_type := Option.map (fun n => decide (n ≠ 0)) item.has_result_type
    has_cte := Option.map (fun n => decide (n ≠ 0)) item.has_cte
    has_order_by := Option.map (fun n => decide (n ≠ 0)) item.has_order_by
    has_group_by := Option.map (fun n => decide (n ≠ 0)) item.has_group_by
    has_join := Option.map (fun n => decide (n ≠ 0)) item.has_join
    codebert_intent_score := if isGeneratedSqlBlank then some 0 else truthyNum item.codebert_intent_score
    codebert_sqlsim_score := if isGeneratedSqlBlank then some 0 else truthyNum item.codebert_sqlsim_score
    flane5_intent_score := if isGeneratedSqlBlank then some 0 else truthyNum item.flane5_intent_score
    flane5_sqlsim_score := if isGeneratedSqlBlank then some 0 else truthyNum item.flane5_sqlsim_score
    ngram1_precision := truthyNum item.ngram1_precision
    ngram1_recall := truthyNum item.ngram1_recall
    ngram1_f1 := truthyNum item.ngram1_f1
    ngram2_precision := truthyNum item.ngram2_precision
    ngram2_recall := truthyNum item.ngram2_recall
    ngram2_f1 := truthyNum item.ngram2_f1
    edit_similarity := truthyNum item.edit_similarity
    vocab_unknown_count := truthyNum item.vocab_unknown_count
    vocab_unknown_ratio := truthyNum (RawTestCase.vocab_unknown_ratio item)
    «precision» := truthyNum item.«precision»
    «recall» := truthyNum item.«recall»
    f1_score := truthyNum item.f1_score
    execution_accuracy := truthyNum item.execution_accuracy }

/-- Function `handleDataLoad` (SQLValidationDashboard.tsx lines 35-102): the body maps
the cleaning function over the input inside a `try`/`catch`.  It is translated
with an explicit error channel to make the error behaviour checkable: the map
performs no per-record validation and cannot fail on any decoded record, so
the result is always `ok` and no record is dropped. -/
def handleDataLoadE (newData : List RawTestCase) : Except String (List SQLTestCase) :=
  Except.ok (newData.map cleanItem)

/-- Helper `getCalculatedSemanticScore` (ExportOptions.tsx lines 15-27).  The very
same four-score expression is inlined verbatim in the dashboard banner
(SQLValidationDashboard.tsx 221-231), in `generateSampleConfusionMatrix`
(115-125), in `calculateSummary` and the score distribution of the current
SummaryCards (228-238, 244-255, 299-311), and in the DataTable semantic-score
cell: the composite is the max of the two scorer averages when ALL FOUR
sub-scores are present numbers, else `0`. -/
def getCalculatedSemanticScore (row : SQLTestCase) : ℚ :=
  match row.codebert_intent_score, row.codebert_sqlsim_score,
        row.flane5_intent_score, row.flane5_sqlsim_score with
  | some ci, some cs, some fi, some fs =>
      max (ci * 0.5 + cs * 0.5) (fi * 0.5 + fs * 0.5)
  | _, _, _, _ => 0

/-- The `notAllZero` guard shared by the dashboard banner, `calculateSummary`
and the confusion matrix: `!(precision === 0 && recall === 0 && f1_score === 0)`
(strict equality with the number `0`, so an absent field never matches). -/
def notAllZeroGuard (d : SQLTestCase) : Bool :=
  !(decide (d.«precision» = some 0) && decide (d.«recall» = some 0) && decide (d.f1_score = some 0))

/-- Pass predicate of the dashboard status banner
(SQLValidationDashboard.tsx lines 217-233). -/
def bannerPass (d : SQLTestCase) : Bool :=
  notAllZeroGuard d && decide (getCalculatedSemanticScore d > 0.7)

/-- Pass predicate of `calculateSummary` in the current SummaryCards
(lines 226-240 of that component). -/
def summaryOverallPass (d : SQLTestCase) : Bool :=
  notAllZeroGuard d && decide (getCalculatedSemanticScore d > 0.7)

/-- The `actualPass` value of `generateSampleConfusionMatrix`
(SQLValidationDashboard.tsx line 126). -/
def cmActualPass (test : SQLTestCase) : Bool :=
  notAllZeroGuard test && decide (getCalculatedSemanticScore test > 0.7)

/-- The `predictedPass` value of `generateSampleConfusionMatrix`
(SQLValidationDashboard.tsx line 127): the same threshold without the guard. -/
def cmPredictedPass (test : SQLTestCase) : Bool :=
  decide (getCalculatedSemanticScore test > 0.7)

/-- Pass predicate of `generateSummaryReport` (ExportOptions.tsx line 66):
`(codebert_match || flane5_match) && semantic_score > 0.75`. -/
def reportPass (d : SQLTestCase) : Bool :=
  (d.codebert_match || d.flane5_match) && decide (d.semantic_score > 0.75)

/-- Legacy pass predicate `codebert_match && flane5_match` (the original
`calculateSummary` line 29 and the DataTable pass/fail filter in the older
DataTable revision). -/
def matchBothPass (d : SQLTestCase) : Bool :=
  d.codebert_match && d.flane5_match

/-- CodeBERT composite of TestCaseModal.tsx lines 181-183: present only when
both CodeBERT sub-scores are numbers. -/
def cbComposite (tc : SQLTestCase) : Option ℚ :=
  match tc.codebert_intent_score, tc.codebert_sqlsim_score with
  | some i, some s => some (i * 0.5 + s * 0.5)
  | _, _ => none

/-- FLANE5 composite of TestCaseModal.tsx lines 184-186. -/
def flComposite (tc : SQLTestCase) : Option ℚ :=
  match tc.flane5_intent_score, tc.flane5_sqlsim_score with
  | some i, some s => some (i * 0.5 + s * 0.5)
  | _, _ => none

/-- The semantic score displayed by TestCaseModal.tsx lines 187-206: max of
the two composites when both are defined, the defined one when exactly one is,
and `undefined` (rendered `N/A`) when neither is. -/
def modalSemanticScore (tc : SQLTestCase) : Option ℚ :=
  match cbComposite tc, flComposite tc with
  | some c, some f => some (max c f)
  | some c, none => some c
  | none, some f => some f
  | none, none => none

/-- The specification's composite semantic score, written from the words of
section 4.2 of the spec for the refinement comparison: per-scorer composites,
max of the present ones, `0` when neither is present. -/
def specSemanticScore (tc : SQLTestCase) : ℚ :=
  match cbComposite tc, flComposite tc with
  | some c, some f => max c f
  | some c, none => c
  | none, some f => f
  | none, none => 0

/-- Per-row substitution of `prepareExportData` (ExportOptions.tsx lines 30-34):
replace `semantic_score` with the calculated value, keep everything else. -/
def prepareExportRow (row : SQLTestCase) : SQLTestCase :=
  { row with semantic_score := getCalculatedSemanticScore row }

/-- Function `prepareExportData` (ExportOptions.tsx lines 30-34). -/
def prepareExportData (data : List SQLTestCase) : List SQLTestCase :=
  data.map prepareExportRow

/-- JSON round trip of an exported record: `JSON.stringify` drops absent
fields and re-parsing restores the same JSON values, so re-decoding an
exported `SQLTestCase` yields the raw record with exactly the record's values.
The seven structural flags re-enter as JSON booleans; their raw slot stores
`Number(bool)` (1 or 0) because the cleaning step reads them through
`Boolean(Number(x))`, which maps that encoding back to the same boolean. -/
def toRaw (tc : SQLTestCase) : RawTestCase :=
  { id := tc.id
    user_prompt := tc.user_prompt
    expected_sql := tc.expected_sql
    generated_sql := tc.generated_sql
    syntax_score := some tc.syntax_score
    semantic_score := some tc.semantic_score
    codebert_match := some tc.codebert_match
    flane5_match := some tc.flane5_match
    true_label := tc.true_label
    n_gram_score := tc.n_gram_score
    bleu_score := tc.bleu_score
    rouge_score := tc.rouge_score
    exact_match := tc.exact_match
    token_count := tc.token_count
    unknown_tokens := RawTokens.arr tc.unknown_tokens
    has_limit := Option.map (fun b => if b then (1 : ℚ) else 0) tc.has_limit
    has_offset := Option.map (fun b => if b then (1 : ℚ) else 0) tc.has_offset
    has_result_type := Option.map (fun b => if b then (1 : ℚ) else 0) tc.has_result_type
    has_cte := Option.map (fun b => if b then (1 : ℚ) else 0) tc.has_cte
    has_order_by := Option.map (fun b => if b then (1 : ℚ) else 0) tc.has_order_by
    has_group_by := Option.map (fun b => if b then (1 : ℚ) else 0) tc.has_group_by
    has_join := Option.map (fun b => if b then (1 : ℚ) else 0) tc.has_join
    codebert_intent_score := tc.codebert_intent_score
    codebert_sqlsim_score := tc.codebert_sqlsim_score
    flane5_intent_score := tc.flane5_intent_score
    flane5_sqlsim_score := tc.flane5_sqlsim_score
    ngram1_precision := tc.ngram1_precision
    ngram1_recall := tc.ngram1_recall
    ngram1_f1 := tc.ngram1_f1
    ngram2_precision := tc.ngram2_precision
    ngram2_recall := tc.ngram2_recall
    ngram2_f1 := tc.ngram2_f1
    edit_similarity := tc.edit_similarity
    vocab_unknown_count := tc.vocab_unknown_count
    vocab_unknown_ratio := SQLTestCase.vocab_unknown_ratio tc
    «precision» := tc.«precision»
    «recall» := tc.«recall»
    f1_score := tc.f1_score
    execution_accuracy := tc.execution_accuracy }

/-- Export a collection as JSON and normalize the re-parsed result:
`prepareExportData`, then per record the JSON round trip followed by the
cleaning step of `handleDataLoad`. -/
def exportRoundTrip (data : List SQLTestCase) : List SQLTestCase :=
  (prepareExportData data).map (fun r => cleanItem (toRaw r))

/-- Function `getScoreColor` of the DataTable (lines 128-133 of that component):
threshold chain at 0.9 / 0.7 / 0.5. -/
def getScoreColor (score : ℚ) : String :=
  if score ≥ 0.9 then "text-metric-excellent"
  else if score ≥ 0.7 then "text-metric-good"
  else if score ≥ 0.5 then "text-metric-fair"
  else "text-metric-poor"

/-- Function `getScoreBadgeVariant` of TestCaseModal.tsx lines 23-28 (same thresholds,
different class strings); `getScoreColor` in SummaryCards uses the same
strings without the trailing `text-white`. -/
def getScoreBadgeVariant (score : ℚ) : String :=
  if score ≥ 0.9 then "bg-metric-excellent text-white"
  else if score ≥ 0.7 then "bg-metric-good text-white"
  else if score ≥ 0.5 then "bg-metric-fair text-white"
  else "bg-metric-poor text-white"

/-- The categorical label ternary chain used in the SummaryCards badges and in
TestCaseModal (e.g. TestCaseModal.tsx lines 167-169): same thresholds. -/
def scoreLabel (score : ℚ) : String :=
  if score ≥ 0.9 then "Excellent"
  else if score ≥ 0.7 then "Good"
  else if score ≥ 0.5 then "Fair"
  else "Poor"

/-- Membership test of the `Excellent` bucket of the summary report's score
distribution (ExportOptions.tsx line 85). -/
def distExcellent (d : SQLTestCase) : Bool :=
  decide (d.semantic_score ≥ 0.9)

/-- Membership test of the `Good` bucket (ExportOptions.tsx line 86). -/
def distGood (d : SQLTestCase) : Bool :=
  decide (d.semantic_score ≥ 0.7) && decide (d.semantic_score < 0.9)

/-- Membership test of the `Fair` bucket (ExportOptions.tsx line 87). -/
def distFair (d : SQLTestCase) : Bool :=
  decide (d.semantic_score ≥ 0.5) && decide (d.semantic_score < 0.7)

/-- Membership test of the `Poor` bucket (ExportOptions.tsx line 88). -/
def distPoor (d : SQLTestCase) : Bool :=
  decide (d.semantic_score < 0.5)

/-- One step of the token tally of `calculateSummary` (the `reduce` over
`flatMap`-ed `unknown_tokens`): bump the count of `t`, keeping first-encounter
key order as a JavaScript object does for string keys. -/
def tokenBump : List (String × ℕ) → String → List (String × ℕ)
  | [], t => [(t, 1)]
  | (s, n) :: rest, t => if s = t then (s, n + 1) :: rest else (s, n) :: tokenBump rest t

/-- Stable descending insertion by count, modelling the stable JavaScript
`sort(([,a],[,b]) => b - a)` over the tally entries. -/
def insertByCount (p : String × ℕ) : List (String × ℕ) → List (String × ℕ)
  | [] => [p]
  | q :: rest => if q.2 < p.2 then p :: q :: rest else q :: insertByCount p rest

/-- The `topUnknownTokens` computation of `calculateSummary` (tally, sort by
count descending, take 5, keep the token strings). -/
def topUnknownTokensOf (data : List SQLTestCase) : List String :=
  let counts := ((data.map (fun d => d.unknown_tokens)).flatten).foldl tokenBump []
  ((counts.foldl (fun acc p => insertByCount p acc) []).take 5).map Prod.fst

/-- The `ValidationSummary` shape of `src/types/validation.ts`. -/
structure ValidationSummary where
  totalTests : ℕ
  passRate : ℚ
  averageSemanticScore : ℚ
  averageSyntaxScore : ℚ
  codebertPassRate : ℚ
  flane5PassRate : ℚ
  commonErrors : List String
  topUnknownTokens : List String
deriving DecidableEq

/-- Function `calculateSummary` of the current SummaryCards (lines 210-281 of that
component): early return of all zeros on an empty collection; otherwise the
guarded pass rate, the mean of the calculated semantic scores (the `reduce`
adds the four-score composite or `0`), the mean syntax score, hardcoded `100`
per-scorer rates, and the top unknown tokens. -/
def calculateSummary (data : List SQLTestCase) : ValidationSummary :=
  if data.length = 0 then
    { totalTests := 0
      passRate := 0
      averageSemanticScore := 0
      averageSyntaxScore := 0
      codebertPassRate := 0
      flane5PassRate := 0
      commonErrors := []
      topUnknownTokens := [] }
  else
    { totalTests := data.length
      passRate := (((data.filter summaryOverallPass).length : ℚ) / (data.length : ℚ)) * 100
      averageSemanticScore := (data.map getCalculatedSemanticScore).sum / (data.length : ℚ)
      averageSyntaxScore := (data.map (fun d => d.syntax_score)).sum / (data.length : ℚ)
      codebertPassRate := 100
      flane5PassRate := 100
      commonErrors := []
      topUnknownTokens := topUnknownTokensOf data }

/-- The 2 by 2 matrix of `generateSampleConfusionMatrix`: `m00` actual Pass /
predicted Pass, `m01` actual Pass / predicted Fail, `m10` actual Fail /
predicted Pass, `m11` actual Fail / predicted Fail. -/
structure CMatrix where
  m00 : ℕ
  m01 : ℕ
  m10 : ℕ
  m11 : ℕ
deriving DecidableEq

/-- Sum of the four cells of the matrix. -/
def cellSum (m : CMatrix) : ℕ :=
  m.m00 + m.m01 + m.m10 + m.m11

/-- The per-record branch of `generateSampleConfusionMatrix`
(SQLValidationDashboard.tsx lines 112-132): exactly one cell is incremented,
chosen by the actual/predicted pair. -/
def cmStep (m : CMatrix) (test : SQLTestCase) : CMatrix :=
  if cmActualPass test && cmPredictedPass test then { m with m00 := m.m00 + 1 }
  else if cmActualPass test && !cmPredictedPass test then { m with m01 := m.m01 + 1 }
  else if !cmActualPass test && cmPredictedPass test then { m with m10 := m.m10 + 1 }
  else { m with m11 := m.m11 + 1 }

/-- The `ConfusionMatrixData` shape of `src/types/validation.ts`. -/
structure ConfusionMatrixData where
  matrix : CMatrix
  labels : List String
  title : String
deriving DecidableEq

/-- Function `generateSampleConfusionMatrix` (SQLValidationDashboard.tsx lines
104-139): fold the per-record branch over the collection starting from the
zero matrix. -/
def generateSampleConfusionMatrix (testData : List SQLTestCase) : ConfusionMatrixData :=
  { matrix := testData.foldl cmStep { m00 := 0, m01 := 0, m10 := 0, m11 := 0 }
    labels := ["Pass", "Fail"]
    title := "Pass/Fail Classification" }

/-- A raw record with every field absent, used to build concrete inputs. -/
def emptyRaw : RawTestCase :=
  { id := none, user_prompt := none, expected_sql := none, generated_sql := none
    syntax_score := none, semantic_score := none, codebert_match := none
    flane5_match := none, true_label := none, n_gram_score := none
    bleu_score := none, rouge_score := none, exact_match := none
    token_count := none, unknown_tokens := RawTokens.absent
    has_limit := none, has_offset := none, has_result_type := none
    has_cte := none, has_order_by := none, has_group_by := none, has_join := none
    codebert_intent_score := none, codebert_sqlsim_score := none
    flane5_intent_score := none, flane5_sqlsim_score := none
    ngram1_precision := none, ngram1_recall := none, ngram1_f1 := none
    ngram2_precision := none, ngram2_recall := none, ngram2_f1 := none
    edit_similarity := none, vocab_unknown_count := none
    vocab_unknown_ratio := none
    «precision» := none, «recall» := none, f1_score := none
    execution_accuracy := none }

/-- A minimal cleaned test case with a non-blank generated query, all scores
zero and all optional metrics absent, used to build concrete inputs. -/
def defaultTC : SQLTestCase :=
  { id := some "t0", user_prompt := some "prompt", expected_sql := some "SELECT 1"
    generated_sql := some "SELECT 1", syntax_score := 0, semantic_score := 0
    codebert_match := false, flane5_match := false, true_label := some "correct"
    n_gram_score := none, bleu_score := none, rouge_score := none
    exact_match := none, token_count := none, unknown_tokens := []
    has_limit := none, has_offset := none, has_result_type := none
    has_cte := none, has_order_by := none, has_group_by := none, has_join := none
    codebert_intent_score := none, codebert_sqlsim_score := none
    flane5_intent_score := none, flane5_sqlsim_score := none
    ngram1_precision := none, ngram1_recall := none, ngram1_f1 := none
    ngram2_precision := none, ngram2_recall := none, ngram2_f1 := none
    edit_similarity := none, vocab_unknown_count := none
    vocab_unknown_ratio := none
    «precision» := none, «recall» := none, f1_score := none
    execution_accuracy := none }

/-- Concrete record whose precision, recall and f1 are all exactly `0` while
every semantic sub-score is `0.9` (composite `0.9 > 0.7`). -/
def tcAllZeroMetrics : SQLTestCase :=
  { defaultTC with
    «precision» := some 0, «recall» := some 0, f1_score := some 0
    codebert_intent_score := some 0.9, codebert_sqlsim_score := some 0.9
    flane5_intent_score := some 0.9, flane5_sqlsim_score := some 0.9 }

/-- Concrete record where exactly one scorer (CodeBERT) has both sub-scores
(`0.9` each) and the other scorer has none. -/
def tcOneScorer : SQLTestCase :=
  { defaultTC with
    codebert_intent_score := some 0.9, codebert_sqlsim_score := some 0.9 }

/-- Concrete raw record with a blank generated query but non-zero syntax and
semantic sub-scores, mirroring the blank-SQL scenario of the spec. -/
def rawBlankSql : RawTestCase :=
  { emptyRaw with
    id := some "t1", generated_sql := some ""
    syntax_score := some 1
    codebert_intent_score := some 0.9, codebert_sqlsim_score := some 0.9
    flane5_intent_score := some 0.8, flane5_sqlsim_score := some 0.8
    «precision» := some 0, «recall» := some 0, f1_score := some 0 }

/-- Concrete record passing the summary report's rule but failing the
canonical rule: `codebert_match` set, legacy `semantic_score` `0.8`, no
semantic sub-scores. -/
def tcReportOnly : SQLTestCase :=
  { defaultTC with codebert_match := true, semantic_score := 0.8 }

/-- Concrete normalized record (blank generated SQL, so the sub-scores carry
the forced zeros) whose stored legacy `semantic_score` (`0.95`) differs from
the calculated semantic score (`0`). -/
def tcLegacySemantic : SQLTestCase :=
  { defaultTC with
    generated_sql := some ""
    semantic_score := 0.95
    codebert_intent_score := some 0, codebert_sqlsim_score := some 0
    flane5_intent_score := some 0, flane5_sqlsim_score := some 0 }

/-- Concrete raw record missing the `id` identity field (and every other
required identity field). -/
def rawMissingId : RawTestCase :=
  { emptyRaw with user_prompt := some "list users", generated_sql := some "SELECT 1" }

/-- Concrete record with semantic score `0.8`, inside the `Good` bucket. -/
def tcGoodScore : SQLTestCase :=
  { defaultTC with semantic_score := 0.8 }

/-- The bucketing property checked for one record: the four score-distribution
buckets of the summary report are mutually exclusive and exhaustive on the
record's semantic score, and each bucket coincides with the corresponding
branch of `getScoreColor`, `getScoreBadgeVariant` and the label chain. -/
def bucketPartitionProp (tc : SQLTestCase) : Prop :=
  ((distExcellent tc).toNat + (distGood tc).toNat + (distFair tc).toNat + (distPoor tc).toNat = 1)
  ∧ (distExcellent tc = true ↔ getScoreColor tc.semantic_score = "text-metric-excellent")
  ∧ (distGood tc = true ↔ getScoreColor tc.semantic_score = "text-metric-good")
  ∧ (distFair tc = true ↔ getScoreColor tc.semantic_score = "text-metric-fair")
  ∧ (distPoor tc = true ↔ getScoreColor tc.semantic_score = "text-metric-poor")
  ∧ (distExcellent tc = true ↔ getScoreBadgeVariant tc.semantic_score = "bg-metric-excellent text-white")
  ∧ (distGood tc = true ↔ getScoreBadgeVariant tc.semantic_score = "bg-metric-good text-white")
  ∧ (distFair tc = true ↔ getScoreBadgeVariant tc.semantic_score = "bg-metric-fair text-white")
  ∧ (distPoor tc = true ↔ getScoreBadgeVariant tc.semantic_score = "bg-metric-poor text-white")
  ∧ (distExcellent tc = true ↔ scoreLabel tc.semantic_score = "Excellent")
  ∧ (distGood tc = true ↔ scoreLabel tc.semantic_score = "Good")
  ∧ (distFair tc = true ↔ scoreLabel tc.semantic_score = "Fair")
  ∧ (distPoor tc = true ↔ scoreLabel tc.semantic_score = "Poor")

theorem truthyNum_idem (o : Option ℚ) : truthyNum (truthyNum o) = truthyNum o := by
  cases o with
  | none => rfl
  | some n =>
    by_cases h : n = 0 <;> simp [truthyNum, h]

theorem truthyBool_idem (o : Option Bool) : truthyBool (truthyBool o) = truthyBool o := by
  cases o with
  | none => rfl
  | some b => cases b <;> rfl

/-- C1: for every test case the overall pass verdict holds exactly when the
precision/recall/f1 all-zero guard is cleared AND the calculated semantic
score exceeds 0.7; in particular the verdict is `false` whenever precision,
recall and f1 all equal exactly `0`, whatever the semantic score.  The same
predicate is computed by the dashboard banner and by `calculateSummary`. -/
theorem overallPass_iff_guard_and_threshold (tc : SQLTestCase) :
    (bannerPass tc = true ↔
      (¬(tc.«precision» = some 0 ∧ tc.«recall» = some 0 ∧ tc.f1_score = some 0) ∧
        getCalculatedSemanticScore tc > 0.7))
    ∧ summaryOverallPass tc = bannerPass tc
    ∧ ((tc.«precision» = some 0 ∧ tc.«recall» = some 0 ∧ tc.f1_score = some 0) →
        bannerPass tc = false) := by
  refine ⟨?_, rfl, ?_⟩
  · simp only [bannerPass, notAllZeroGuard, Bool.and_eq_true, Bool.not_eq_true',
      Bool.and_eq_false_imp, decide_eq_true_eq, decide_eq_false_iff_not, gt_iff_lt]
    tauto
  · rintro ⟨h1, h2, h3⟩
    simp [bannerPass, notAllZeroGuard, h1, h2, h3]

/-- Witness for C1 at a record whose precision, recall and f1 are all exactly
`0` while its calculated semantic score is `0.9`: the verdict is `false`. -/
theorem overallPass_iff_guard_and_threshold_witness :
    bannerPass tcAllZeroMetrics = false :=
  (overallPass_iff_guard_and_threshold tcAllZeroMetrics).2.2 ⟨rfl, rfl, rfl⟩

/-- C2 counterexample: a record where exactly one scorer has both sub-scores
(composite `0.9`).  The claim says the semantic score equals that composite;
the aggregate semantic score used by the table, summary, export and confusion
matrix is `0` instead. -/
theorem semanticScore_single_scorer_fallback_cex :
    getCalculatedSemanticScore tcOneScorer = 0 ∧
    specSemanticScore tcOneScorer = 0.9 ∧
    getCalculatedSemanticScore tcOneScorer ≠ specSemanticScore tcOneScorer := by
  refine ⟨rfl, ?_, ?_⟩ <;>
    norm_num [specSemanticScore, getCalculatedSemanticScore, cbComposite, flComposite,
      tcOneScorer, defaultTC]

/-- C2 amended: the aggregate semantic score equals the max of the two
per-scorer composites only when BOTH composites are defined (all four
sub-scores present) and is `0` otherwise — no single-scorer fallback; the
modal's displayed semantic score is the only variant with the fallback
(that composite when exactly one is defined, absent when neither is). -/
theorem semanticScore_agg_vs_modal (tc : SQLTestCase) :
    getCalculatedSemanticScore tc =
      (match cbComposite tc, flComposite tc with
       | some c, some f => max c f
       | _, _ => 0)
    ∧ modalSemanticScore tc =
      (match cbComposite tc, flComposite tc with
       | some c, some f => some (max c f)
       | some c, none => some c
       | none, some f => some f
       | none, none => none) := by
  constructor
  · rcases h1 : tc.codebert_intent_score with _ | ci <;>
    rcases h2 : tc.codebert_sqlsim_score with _ | cs <;>
    rcases h3 : tc.flane5_intent_score with _ | fi <;>
    rcases h4 : tc.flane5_sqlsim_score with _ | fs <;>
      simp [getCalculatedSemanticScore, cbComposite, flComposite, h1, h2, h3, h4]
  · rfl

/-- C3: normalizing any raw record whose generated SQL is absent, empty or
whitespace-only forces the syntax score to `0` and all four model-pair
sub-scores to `0`, whatever values the raw record carried. -/
theorem blank_generated_sql_forces_zero (raw : RawTestCase)
    (h : jsBlank raw.generated_sql = true) :
    (cleanItem raw).syntax_score = 0 ∧
    (cleanItem raw).codebert_intent_score = some 0 ∧
    (cleanItem raw).codebert_sqlsim_score = some 0 ∧
    (cleanItem raw).flane5_intent_score = some 0 ∧
    (cleanItem raw).flane5_sqlsim_score = some 0 := by
  simp [cleanItem, h]

/-- Witness for C3 at a raw record with empty generated SQL, syntax score `1`
and non-zero sub-scores. -/
theorem blank_generated_sql_forces_zero_witness :
    jsBlank (RawTestCase.generated_sql rawBlankSql) = true ∧
    ((cleanItem rawBlankSql).syntax_score = 0 ∧
     (cleanItem rawBlankSql).codebert_intent_score = some 0 ∧
     (cleanItem rawBlankSql).codebert_sqlsim_score = some 0 ∧
     (cleanItem rawBlankSql).flane5_intent_score = some 0 ∧
     (cleanItem rawBlankSql).flane5_sqlsim_score = some 0) :=
  ⟨rfl, blank_generated_sql_forces_zero rawBlankSql rfl⟩

/-- C4 counterexample: a record that passes the summary report's rule
(`(codebert_match || flane5_match) && semantic_score > 0.75`) while failing
the canonical guarded rule, so the program's pass predicates are not all
extensionally equal. -/
theorem pass_rule_not_unique_cex :
    reportPass tcReportOnly = true ∧ bannerPass tcReportOnly = false ∧
    matchBothPass tcReportOnly = false := by
  refine ⟨?_, ?_, rfl⟩ <;>
    norm_num [reportPass, bannerPass, notAllZeroGuard, getCalculatedSemanticScore,
      matchBothPass, tcReportOnly, defaultTC]

/-- C4 amended: the dashboard banner, `calculateSummary` and the confusion
matrix do share one pass rule, but `generateSummaryReport` uses a different
rule and threshold and the legacy both-matches predicate differs as well, so
not every pass predicate in the program is extensionally equal. -/
theorem canonical_sites_agree_alternates_diverge :
    (∀ tc, bannerPass tc = summaryOverallPass tc ∧ summaryOverallPass tc = cmActualPass tc)
    ∧ (∃ tc, reportPass tc ≠ bannerPass tc)
    ∧ (∃ tc, matchBothPass tc ≠ reportPass tc) := by
  refine ⟨fun _ => ⟨rfl, rfl⟩, ⟨tcReportOnly, ?_⟩, ⟨tcReportOnly, ?_⟩⟩ <;>
    norm_num [reportPass, bannerPass, notAllZeroGuard, getCalculatedSemanticScore,
      matchBothPass, tcReportOnly, defaultTC]

/-- C6 counterexample: a raw record with no `id` (nor any other identity
field) is normalized successfully — `handleDataLoad` performs no per-record
validation, signals no `MalformedRecordError`, and passes the record through
with its identity fields still absent. -/
theorem normalize_missing_id_no_error_cex :
    handleDataLoadE [rawMissingId] = Except.ok [cleanItem rawMissingId] ∧
    RawTestCase.id rawMissingId = none ∧ (cleanItem rawMissingId).id = none :=
  ⟨rfl, rfl, rfl⟩

/-- C6 amended: normalization is total — it never throws for missing optional
fields, and it also never signals any error for missing required identity
fields; every input record yields exactly one output record (none dropped). -/
theorem normalize_total_no_drop (newData : List RawTestCase) :
    handleDataLoadE newData = Except.ok (newData.map cleanItem) ∧
    (newData.map cleanItem).length = newData.length :=
  ⟨rfl, by simp⟩

/-- C7: on any semantic score in `[0,1]` the four score-distribution buckets
are mutually exclusive and exhaustive, and they coincide with the branches of
`getScoreColor`, `getScoreBadgeVariant` and the categorical label chain — the
same 0.9/0.7/0.5 thresholds everywhere. -/
theorem score_bucket_partition (tc : SQLTestCase)
    (_hlo : 0 ≤ tc.semantic_score) (_hhi : tc.semantic_score ≤ 1) :
    bucketPartitionProp tc := by
  unfold bucketPartitionProp distExcellent distGood distFair distPoor
    getScoreColor getScoreBadgeVariant scoreLabel
  by_cases h9 : (0.9 : ℚ) ≤ tc.semantic_score
  · have h7 : (0.7 : ℚ) ≤ tc.semantic_score := by linarith
    have h5 : (0.5 : ℚ) ≤ tc.semantic_score := by linarith
    simp [ge_iff_le, h9, h7, h5, not_lt.mpr h9, not_lt.mpr h7, not_lt.mpr h5]
  · by_cases h7 : (0.7 : ℚ) ≤ tc.semantic_score
    · have h5 : (0.5 : ℚ) ≤ tc.semantic_score := by linarith
      simp [ge_iff_le, h9, h7, h5, not_le.mp h9, not_lt.mpr h7, not_lt.mpr h5]
    · by_cases h5 : (0.5 : ℚ) ≤ tc.semantic_score
      · simp [ge_iff_le, h9, h7, h5, not_le.mp h9, not_le.mp h7, not_lt.mpr h5]
      · simp [ge_iff_le, h9, h7, h5, not_le.mp h9, not_le.mp h7, not_le.mp h5]

/-- Witness for C7 at a record with semantic score `0.8` (the `Good`
bucket). -/
theorem score_bucket_partition_witness :
    (0 : ℚ) ≤ SQLTestCase.semantic_score tcGoodScore ∧
    SQLTestCase.semantic_score tcGoodScore ≤ 1 ∧
    bucketPartitionProp tcGoodScore :=
  ⟨by norm_num [tcGoodScore, defaultTC], by norm_num [tcGoodScore, defaultTC],
    score_bucket_partition tcGoodScore (by norm_num [tcGoodScore, defaultTC])
      (by norm_num [tcGoodScore, defaultTC])⟩

/-- C8: summarizing the empty collection yields zero total, all rates and
averages `0` and an empty token list (the early return guards the
divisions). -/
theorem calculateSummary_empty :
    calculateSummary [] =
      { totalTests := 0
        passRate := 0
        averageSemanticScore := 0
        averageSyntaxScore := 0
        codebertPassRate := 0
        flane5PassRate := 0
        commonErrors := []
        topUnknownTokens := [] } :=
  rfl

theorem cmStep_cellSum (m : CMatrix) (t : SQLTestCase) :
    cellSum (cmStep m t) = cellSum m + 1 := by
  have hap : cmActualPass t = (notAllZeroGuard t && cmPredictedPass t) := rfl
  rcases h1 : notAllZeroGuard t <;> rcases h2 : cmPredictedPass t <;>
    simp [cmStep, hap, h1, h2, cellSum] <;> omega

theorem foldl_cmStep_cellSum (data : List SQLTestCase) :
    ∀ m : CMatrix, cellSum (data.foldl cmStep m) = cellSum m + data.length := by
  induction data with
  | nil => intro m; simp
  | cons t rest ih =>
    intro m
    simp only [List.foldl_cons, List.length_cons, ih, cmStep_cellSum]
    omega

/-- C9: every record lands in exactly one cell of the confusion matrix, so
for any non-empty collection the four cells sum to the number of records. -/
theorem confusionMatrix_cellSum_eq_total (data : List SQLTestCase) (_h : data ≠ []) :
    cellSum (ConfusionMatrixData.matrix (generateSampleConfusionMatrix data)) = data.length := by
  simp only [generateSampleConfusionMatrix]
  rw [foldl_cmStep_cellSum]
  simp [cellSum]

/-- Witness for C9 at a one-record collection. -/
theorem confusionMatrix_cellSum_eq_total_witness :
    cellSum (ConfusionMatrixData.matrix (generateSampleConfusionMatrix [defaultTC])) = 1 :=
  confusionMatrix_cellSum_eq_total [defaultTC] (by simp)

theorem cmStep_m01 (m : CMatrix) (t : SQLTestCase) : (cmStep m t).m01 = m.m01 := by
  have hap : cmActualPass t = (notAllZeroGuard t && cmPredictedPass t) := rfl
  rcases h1 : notAllZeroGuard t <;> rcases h2 : cmPredictedPass t <;>
    simp [cmStep, hap, h1, h2]

/-- C10: the actual-Pass / predicted-Fail cell of the confusion matrix is `0`
for every input collection, because the actual classification (guard AND
threshold) implies the predicted classification (same threshold alone). -/
theorem confusionMatrix_false_negative_cell_zero (testData : List SQLTestCase) :
    (ConfusionMatrixData.matrix (generateSampleConfusionMatrix testData)).m01 = 0 := by
  suffices h : ∀ m : CMatrix, (testData.foldl cmStep m).m01 = m.m01 by
    simp [generateSampleConfusionMatrix, h]
  induction testData with
  | nil => intro m; rfl
  | cons t rest ih =>
    intro m
    simp only [List.foldl_cons, ih, cmStep_m01]

theorem flagRoundN (ob : Option Bool) :
    Option.map (fun n : ℚ => !decide (n = 0))
      (Option.map (fun b : Bool => if b = true then (1 : ℚ) else 0) ob) = ob := by
  cases ob with
  | none => rfl
  | some b => cases b <;> simp

theorem agg_semantic_update (tc : SQLTestCase) (q : ℚ) :
    getCalculatedSemanticScore { tc with semantic_score := q } =
      getCalculatedSemanticScore tc :=
  rfl

theorem roundTrip_clean (raw : RawTestCase) :
    cleanItem (toRaw (prepareExportRow (cleanItem raw))) =
      { cleanItem raw with semantic_score := getCalculatedSemanticScore (cleanItem raw) } := by
  cases hb : jsBlank raw.generated_sql <;>
    simp [cleanItem, toRaw, prepareExportRow, hb, numberOr0, truthyNum_idem,
      truthyBool_idem, coerceTokens, jsBool] <;>
    refine ⟨?_, ?_, ?_, ?_, ?_, ?_, ?_⟩ <;>
    rw [← Option.map_map, ← Option.map_map] <;>
    exact flagRoundN _

theorem roundTrip_idem_clean (raw : RawTestCase) :
    cleanItem (toRaw (prepareExportRow (cleanItem (toRaw (prepareExportRow (cleanItem raw)))))) =
      cleanItem (toRaw (prepareExportRow (cleanItem raw))) := by
  have h1 := roundTrip_clean raw
  have h2 := roundTrip_clean (toRaw (prepareExportRow (cleanItem raw)))
  rw [h1] at h2 ⊢
  exact h2.trans rfl

/-- C5 counterexample: a normalized record (a fixed point of the cleaning
step) whose stored legacy `semantic_score` is `0.95` while its calculated
semantic score is `0`: exporting and re-normalizing changes the record, so
the round trip is not the identity on normalized collections. -/
theorem export_roundTrip_not_identity_cex :
    cleanItem (toRaw tcLegacySemantic) = tcLegacySemantic ∧
    exportRoundTrip [tcLegacySemantic] ≠ [tcLegacySemantic] := by
  refine ⟨rfl, ?_⟩
  intro h
  have h1 : (exportRoundTrip [tcLegacySemantic]).map (fun tc => tc.semantic_score) =
      [tcLegacySemantic].map (fun tc => tc.semantic_score) := by rw [h]
  norm_num [exportRoundTrip, prepareExportData, prepareExportRow, cleanItem, toRaw,
    getCalculatedSemanticScore, numberOr0, tcLegacySemantic, defaultTC] at h1

/-- C5 amended: on a normalized collection the export/re-normalize round trip
preserves every field except `semantic_score`, which is replaced by the
calculated semantic score; consequently the round trip is idempotent, and it
is the identity exactly on records whose stored `semantic_score` already
equals the calculated one. -/
theorem export_roundTrip_semantic_substitution (rawData : List RawTestCase) :
    exportRoundTrip (rawData.map cleanItem) =
      (rawData.map cleanItem).map
        (fun tc => { tc with semantic_score := getCalculatedSemanticScore tc })
    ∧ exportRoundTrip (exportRoundTrip (rawData.map cleanItem)) =
      exportRoundTrip (rawData.map cleanItem) := by
  constructor
  · simp only [exportRoundTrip, prepareExportData, List.map_map]
    congr 1
    funext raw
    simp only [Function.comp]
    exact roundTrip_clean raw
  · simp only [exportRoundTrip, prepareExportData, List.map_map]
    congr 1
    funext raw
    simp only [Function.comp]
    exact roundTrip_idem_clean raw
